import Mathlib

/-!
Verification of the seify-bladerf core against its specification.

The development shallowly embeds the two streamer modules
(src/streamers/rx_sync_stream.rs, src/streamers/tx_sync_stream.rs) and the
expansion-board GPIO module (src/expansion_boards/xb_gpio.rs).  Every call the
code makes across the driver boundary (libbladerf) is recorded in a trace, and
the mock driver decides each call's status.  Machine integers are Nat with an
explicit reduction mod 2^32 where the source casts to u32.
-/

namespace BRF

/-- The crate's channel enumeration (`Channel`): the four physical channels
used by the streamers' enable/disable/drop paths. -/
inductive Channel
  | Rx0 | Rx1 | Tx0 | Tx1
deriving DecidableEq, Repr

/-- The crate's `RxChannel` enumeration, as matched by the streamers. -/
inductive RxChannel
  | Rx0 | Rx1
deriving DecidableEq, Repr

/-- The crate's `TxChannel` enumeration, as matched by the streamers. -/
inductive TxChannel
  | Tx0 | Tx1
deriving DecidableEq, Repr

/-- Modelled from the spec: the `From<RxChannel> for Channel` conversion
(`ch.into()` in the streamers) lives outside the staged sources; the spec's
channel enumeration maps each RX channel to the physical channel of the same
index. -/
def RxChannel.toChannel : RxChannel → Channel
  | .Rx0 => .Rx0
  | .Rx1 => .Rx1

/-- Modelled from the spec: the `From<TxChannel> for Channel` conversion. -/
def TxChannel.toChannel : TxChannel → Channel
  | .Tx0 => .Tx0
  | .Tx1 => .Tx1

/-- The RX channel layout (`ChannelLayoutRx`): its constructors `SISO(ch)` and
`MIMO` are exactly the patterns the streamers match on; the type itself is
declared at the crate root, outside the staged sources. -/
inductive ChannelLayoutRx
  | SISO (ch : RxChannel)
  | MIMO
deriving DecidableEq, Repr

/-- The TX channel layout (`ChannelLayoutTx`). -/
inductive ChannelLayoutTx
  | SISO (ch : TxChannel)
  | MIMO
deriving DecidableEq, Repr

/-- Modelled from the spec: the stream-configuration value object of the data
model (number of transfer buffers, buffer size in samples, in-flight
transfers, timeout); `StreamConfig` is declared in streamers/mod.rs, outside
the staged sources, and the streamers treat it as opaque data. -/
structure StreamConfig where
  numBuffers : Nat
  bufferSize : Nat
  numTransfers : Nat
  timeoutMs : Nat
deriving DecidableEq, Repr

/-- Modelled from the spec: a sample-encoding tag.  In the source the encoding
is the phantom type parameter `F : SampleFormat` handed to
`set_sync_config::<F>`; here it is an opaque numeric code carried along so the
driver call records which encoding was configured. -/
abbrev SampleFormat := Nat

/-- Modelled from the spec: the direction-generic channel layout that
`layout.into()` produces for `set_sync_config` (declared outside the staged
sources); it carries the direction together with the direction's layout. -/
inductive ChannelLayout
  | rx (l : ChannelLayoutRx)
  | tx (l : ChannelLayoutTx)
deriving DecidableEq, Repr

/-- Direction of a sample transfer (bladerf_sync_rx vs bladerf_sync_tx). -/
inductive Direction
  | Rx | Tx
deriving DecidableEq, Repr

/-- One call crossing the driver boundary, as issued by the staged sources:
the sync-stream configuration (`set_sync_config::<F>`), per-channel enable
(`set_enable_module`), a blocking sample transfer (`bladerf_sync_rx/tx`), and
the expansion-GPIO register reads and masked writes. -/
inductive DriverCall
  | setSyncConfig (fmt : SampleFormat) (layout : ChannelLayout) (config : StreamConfig)
  | setEnableModule (ch : Channel) (enabled : Bool)
  | syncTransfer (dir : Direction) (numSamples : Nat) (timeoutMs : Nat)
  | gpioRead
  | gpioMaskedWrite (mask value : Nat)
  | gpioDirMaskedWrite (mask outputs : Nat)
deriving DecidableEq, Repr

/-- A mock driver boundary: how it answers each call (an error carries the
raw status code that check_res! would wrap), and the value the expansion GPIO
value register reads as. -/
structure Driver where
  respond : DriverCall → Except Int Unit
  gpioVal : Nat

/-- The pin level type (embedded_hal's PinState, as used by xb_gpio.rs). -/
inductive PinState
  | High | Low
deriving DecidableEq, Repr

/-!
RX streamer (src/streamers/rx_sync_stream.rs).  The struct's device reference
is the `Driver` every operation receives; the phantom device-variant parameter
is resolved by which enable/disable function applies; the phantom sample
format is carried as the `fmt` code.
-/

/-- The RxSyncStream struct (rx_sync_stream.rs lines 20-26): stored channel
layout and stream configuration, plus the sample-format tag. -/
structure RxSyncStream where
  layout : ChannelLayoutRx
  config : StreamConfig
  fmt : SampleFormat
deriving DecidableEq, Repr

/-- The `set_sync_config::<F>(&self.config, self.layout.into())` call a given
RX handle issues. -/
def RxSyncStream.cfgCall (s : RxSyncStream) : DriverCall :=
  .setSyncConfig s.fmt (.rx s.layout) s.config

/-- RxSyncStream::read (lines 29-41): one bladerf_sync_rx call with
`buffer.len() as u32` samples and `timeout.as_millis() as u32` milliseconds
(both casts reduce mod 2^32); check_res! maps the driver status to the
result. -/
def RxSyncStream.read (_s : RxSyncStream) (d : Driver) (bufferLen timeoutMillis : Nat) :
    List DriverCall × Except Int Unit :=
  let c := DriverCall.syncTransfer .Rx (bufferLen % 2 ^ 32) (timeoutMillis % 2 ^ 32)
  ([c], d.respond c)

/-- RxSyncStream::new (lines 45-61): set_sync_config first; on an error status
the `?` operator returns it and no handle is built; on success the handle
stores the given layout and config verbatim. -/
def RxSyncStream.new (d : Driver) (fmt : SampleFormat) (config : StreamConfig)
    (layout : ChannelLayoutRx) : List DriverCall × Except Int RxSyncStream :=
  let c := DriverCall.setSyncConfig fmt (.rx layout) config
  match d.respond c with
  | .error e => ([c], .error e)
  | .ok _ => ([c], .ok ⟨layout, config, fmt⟩)

/-- impl Drop for RxSyncStream (lines 94-100): both RX channels are told to
disable unconditionally and both results are discarded (`let _ = ...`); the
glue returns no error whatever the driver answers. -/
def RxSyncStream.dropImpl (d : Driver) : List DriverCall × Unit :=
  let c0 := DriverCall.setEnableModule .Rx0 false
  let c1 := DriverCall.setEnableModule .Rx1 false
  let _ := d.respond c0
  let _ := d.respond c1
  ([c0, c1], ())

/-- RxSyncStream::reconfigure_inner for the exclusively borrowed mode
(lines 64-77): `drop(self)` runs first — the source comments that disabling
voids the configuration, so the old handle must be torn down before
RxSyncStream::new — then the new handle is built. -/
def RxSyncStream.reconfigure_inner_ref (_s : RxSyncStream) (d : Driver)
    (config : StreamConfig) (layout : ChannelLayoutRx) (nf : SampleFormat) :
    List DriverCall × Except Int RxSyncStream :=
  let dropped := RxSyncStream.dropImpl d
  let created := RxSyncStream.new d nf config layout
  (dropped.1 ++ created.1, created.2)

/-- RxSyncStream::reconfigure_inner for the Arc ownership mode (lines 79-92):
same body as the borrowed mode up to `self.dev.clone()` — drop(self) first,
then RxSyncStream::new. -/
def RxSyncStream.reconfigure_inner_arc (_s : RxSyncStream) (d : Driver)
    (config : StreamConfig) (layout : ChannelLayoutRx) (nf : SampleFormat) :
    List DriverCall × Except Int RxSyncStream :=
  let dropped := RxSyncStream.dropImpl d
  let created := RxSyncStream.new d nf config layout
  (dropped.1 ++ created.1, created.2)

/-- RxSyncStream::enable for BladeRf1 (lines 105-119): set_sync_config with
the stored config and layout, then enable Channel::Rx0. -/
def RxSyncStream.enableRf1 (s : RxSyncStream) (d : Driver) :
    List DriverCall × Except Int Unit :=
  let c := s.cfgCall
  match d.respond c with
  | .error e => ([c], .error e)
  | .ok _ =>
    let c0 := DriverCall.setEnableModule .Rx0 true
    ([c, c0], d.respond c0)

/-- RxSyncStream::disable for BladeRf1 (lines 116-118). -/
def RxSyncStream.disableRf1 (_s : RxSyncStream) (d : Driver) :
    List DriverCall × Except Int Unit :=
  let c0 := DriverCall.setEnableModule .Rx0 false
  ([c0], d.respond c0)

/-- RxSyncStream::enable for BladeRf2 (lines 143-159): set_sync_config with
the stored config and layout, then the layout's channels: the SISO channel
alone, or Rx0 then Rx1 for MIMO, each `?`-propagating its error. -/
def RxSyncStream.enableRf2 (s : RxSyncStream) (d : Driver) :
    List DriverCall × Except Int Unit :=
  let c := s.cfgCall
  match d.respond c with
  | .error e => ([c], .error e)
  | .ok _ =>
    match s.layout with
    | .SISO ch =>
      let c1 := DriverCall.setEnableModule ch.toChannel true
      ([c, c1], d.respond c1)
    | .MIMO =>
      let c0 := DriverCall.setEnableModule .Rx0 true
      match d.respond c0 with
      | .error e => ([c, c0], .error e)
      | .ok _ =>
        let c1 := DriverCall.setEnableModule .Rx1 true
        ([c, c0, c1], d.respond c1)

/-- RxSyncStream::disable for BladeRf2 (lines 161-170). -/
def RxSyncStream.disableRf2 (s : RxSyncStream) (d : Driver) :
    List DriverCall × Except Int Unit :=
  match s.layout with
  | .SISO ch =>
    let c1 := DriverCall.setEnableModule ch.toChannel false
    ([c1], d.respond c1)
  | .MIMO =>
    let c0 := DriverCall.setEnableModule .Rx0 false
    match d.respond c0 with
    | .error e => ([c0], .error e)
    | .ok _ =>
      let c1 := DriverCall.setEnableModule .Rx1 false
      ([c0, c1], d.respond c1)

/-- RxSyncStream::enable for BladeRfAny (lines 196-212): same body as the
BladeRf2 enable. -/
def RxSyncStream.enableAny (s : RxSyncStream) (d : Driver) :
    List DriverCall × Except Int Unit :=
  let c := s.cfgCall
  match d.respond c with
  | .error e => ([c], .error e)
  | .ok _ =>
    match s.layout with
    | .SISO ch =>
      let c1 := DriverCall.setEnableModule ch.toChannel true
      ([c, c1], d.respond c1)
    | .MIMO =>
      let c0 := DriverCall.setEnableModule .Rx0 true
      match d.respond c0 with
      | .error e => ([c, c0], .error e)
      | .ok _ =>
        let c1 := DriverCall.setEnableModule .Rx1 true
        ([c, c0, c1], d.respond c1)

/-!
TX streamer (src/streamers/tx_sync_stream.rs).  Near-duplicate of the RX
streamer; the one structural difference is in reconfigure_inner, which has no
explicit `drop(self)` before `TxSyncStream::new`.
-/

/-- The TxSyncStream struct (tx_sync_stream.rs lines 20-26). -/
structure TxSyncStream where
  layout : ChannelLayoutTx
  config : StreamConfig
  fmt : SampleFormat
deriving DecidableEq, Repr

/-- The `set_sync_config::<F>(&self.config, self.layout.into())` call a given
TX handle issues. -/
def TxSyncStream.cfgCall (s : TxSyncStream) : DriverCall :=
  .setSyncConfig s.fmt (.tx s.layout) s.config

/-- TxSyncStream::write (lines 29-41): one bladerf_sync_tx call with
`buffer.len() as u32` samples and `timeout.as_millis() as u32` milliseconds
(both casts reduce mod 2^32). -/
def TxSyncStream.write (_s : TxSyncStream) (d : Driver) (bufferLen timeoutMillis : Nat) :
    List DriverCall × Except Int Unit :=
  let c := DriverCall.syncTransfer .Tx (bufferLen % 2 ^ 32) (timeoutMillis % 2 ^ 32)
  ([c], d.respond c)

/-- TxSyncStream::new (lines 45-61): set_sync_config first; on an error status
no handle is built; on success the handle stores layout and config verbatim. -/
def TxSyncStream.new (d : Driver) (fmt : SampleFormat) (config : StreamConfig)
    (layout : ChannelLayoutTx) : List DriverCall × Except Int TxSyncStream :=
  let c := DriverCall.setSyncConfig fmt (.tx layout) config
  match d.respond c with
  | .error e => ([c], .error e)
  | .ok _ => ([c], .ok ⟨layout, config, fmt⟩)

/-- impl Drop for TxSyncStream (lines 86-92): both TX channels are told to
disable unconditionally and both results are discarded. -/
def TxSyncStream.dropImpl (d : Driver) : List DriverCall × Unit :=
  let c0 := DriverCall.setEnableModule .Tx0 false
  let c1 := DriverCall.setEnableModule .Tx1 false
  let _ := d.respond c0
  let _ := d.respond c1
  ([c0, c1], ())

/-- TxSyncStream::reconfigure_inner for the exclusively borrowed mode
(lines 64-73): the body is `unsafe { TxSyncStream::new(self.dev, config,
layout) }` with no `drop(self)`.  `self.dev` is a Copy reference, so `self`
stays live while the tail expression runs and is only dropped when it goes out
of scope after the new handle is built: the Drop disables reach the driver
after the set_sync_config call. -/
def TxSyncStream.reconfigure_inner_ref (_s : TxSyncStream) (d : Driver)
    (config : StreamConfig) (layout : ChannelLayoutTx) (nf : SampleFormat) :
    List DriverCall × Except Int TxSyncStream :=
  let created := TxSyncStream.new d nf config layout
  let dropped := TxSyncStream.dropImpl d
  (created.1 ++ dropped.1, created.2)

/-- TxSyncStream::reconfigure_inner for the Arc ownership mode (lines 75-84):
`TxSyncStream::new(self.dev.clone(), ...)` with no `drop(self)`; `self` is
dropped at end of scope, after the new handle is built. -/
def TxSyncStream.reconfigure_inner_arc (_s : TxSyncStream) (d : Driver)
    (config : StreamConfig) (layout : ChannelLayoutTx) (nf : SampleFormat) :
    List DriverCall × Except Int TxSyncStream :=
  let created := TxSyncStream.new d nf config layout
  let dropped := TxSyncStream.dropImpl d
  (created.1 ++ dropped.1, created.2)

/-- TxSyncStream::enable for BladeRf1 (lines 97-106): set_sync_config with the
stored config and layout, then enable Channel::Tx0. -/
def TxSyncStream.enableRf1 (s : TxSyncStream) (d : Driver) :
    List DriverCall × Except Int Unit :=
  let c := s.cfgCall
  match d.respond c with
  | .error e => ([c], .error e)
  | .ok _ =>
    let c0 := DriverCall.setEnableModule .Tx0 true
    ([c, c0], d.respond c0)

/-- TxSyncStream::disable for BladeRf1 (lines 108-110). -/
def TxSyncStream.disableRf1 (_s : TxSyncStream) (d : Driver) :
    List DriverCall × Except Int Unit :=
  let c0 := DriverCall.setEnableModule .Tx0 false
  ([c0], d.respond c0)

/-- TxSyncStream::enable for BladeRf2 (lines 135-150): set_sync_config, then
the layout's channels: the SISO channel alone, or Tx0 then Tx1 for MIMO. -/
def TxSyncStream.enableRf2 (s : TxSyncStream) (d : Driver) :
    List DriverCall × Except Int Unit :=
  let c := s.cfgCall
  match d.respond c with
  | .error e => ([c], .error e)
  | .ok _ =>
    match s.layout with
    | .SISO ch =>
      let c1 := DriverCall.setEnableModule ch.toChannel true
      ([c, c1], d.respond c1)
    | .MIMO =>
      let c0 := DriverCall.setEnableModule .Tx0 true
      match d.respond c0 with
      | .error e => ([c, c0], .error e)
      | .ok _ =>
        let c1 := DriverCall.setEnableModule .Tx1 true
        ([c, c0, c1], d.respond c1)

/-!
Expansion-board GPIO (src/expansion_boards/xb_gpio.rs).
-/

/-- The direction type-state tags of xb_gpio.rs (the unit structs Disabled,
Input, Output), made a value-level index of the pin handle. -/
inductive PinDir
  | Disabled | Input | Output
deriving DecidableEq, Repr

/-- pin_to_bitmask (xb_gpio.rs lines 41-43): `1 << (pin - 1)` on u32, here
reduced mod 2^32; meaningful for pin numbers 1..=32. -/
def pin_to_bitmask (pin : Nat) : Nat :=
  (1 <<< (pin - 1)) % 2 ^ 32

/-- pinstate_from_reg (xb_gpio.rs lines 46-48):
`((reg >> (pin - 1)) & 1) == 1`. -/
def pinstate_from_reg (pin : Nat) (reg : Nat) : Bool :=
  ((reg >>> (pin - 1)) &&& 1) == 1

/-- pin_to_bitmask under the source's checked integer semantics: `pin - 1` on
u8 underflows for pin = 0, and `1u32 << n` overflows the shift for n ≥ 32
(both are panics, and pin_to_bitmask is a const fn, so they are hit even in
release builds at const-eval sites); `none` models the panic. -/
def pin_to_bitmask_checked (pin : Nat) : Option Nat :=
  if pin = 0 then none
  else if 32 ≤ pin - 1 then none
  else some (1 <<< (pin - 1))

/-- pinstate_from_reg under the source's checked integer semantics: the same
u8 underflow at pin = 0 and u32 shift overflow for pin - 1 ≥ 32. -/
def pinstate_from_reg_checked (pin : Nat) (reg : Nat) : Option Bool :=
  if pin = 0 then none
  else if 32 ≤ pin - 1 then none
  else some (((reg >>> (pin - 1)) &&& 1) == 1)

/-- The XbGpioPin struct (xb_gpio.rs lines 50-54): the pin number, indexed by
the direction tag that is the phantom parameter T in the source; the device
reference is the Driver each operation receives. -/
structure XbGpioPin (T : PinDir) where
  pin : Nat
deriving DecidableEq, Repr

/-- XbGpioPin::new (lines 57-63): stores the pin number with no validation and
returns a Disabled-tagged handle. -/
def XbGpioPin.new (pin : Nat) : XbGpioPin .Disabled := ⟨pin⟩

/-- XbGpioPin::into_input (lines 65-72): a masked write to the direction
register clearing this pin's bit (outputs = 0), then a handle retagged Input
with the same pin number.  The surrounding impl block (line 56) binds the
direction tag generically, so this conversion exists at every direction
state T. -/
def XbGpioPin.into_input {T : PinDir} (p : XbGpioPin T) (d : Driver) :
    List DriverCall × Except Int (XbGpioPin .Input) :=
  let c := DriverCall.gpioDirMaskedWrite (pin_to_bitmask p.pin) 0
  match d.respond c with
  | .error e => ([c], .error e)
  | .ok _ => ([c], .ok ⟨p.pin⟩)

/-- XbGpioPin::into_output (lines 74-81): a masked write to the direction
register setting this pin's bit (outputs = u32::MAX), then a handle retagged
Output; like into_input it exists at every direction state T. -/
def XbGpioPin.into_output {T : PinDir} (p : XbGpioPin T) (d : Driver) :
    List DriverCall × Except Int (XbGpioPin .Output) :=
  let c := DriverCall.gpioDirMaskedWrite (pin_to_bitmask p.pin) (2 ^ 32 - 1)
  match d.respond c with
  | .error e => ([c], .error e)
  | .ok _ => ([c], .ok ⟨p.pin⟩)

/-- XbGpioPin::read (lines 84-93), offered only at the Input state: read the
GPIO value register and test this pin's bit. -/
def XbGpioPin.read (p : XbGpioPin .Input) (d : Driver) :
    List DriverCall × Except Int PinState :=
  match d.respond .gpioRead with
  | .error e => ([DriverCall.gpioRead], .error e)
  | .ok _ =>
    ([DriverCall.gpioRead],
      .ok (if pinstate_from_reg p.pin d.gpioVal then .High else .Low))

/-- XbGpioPin::write (lines 95-103), offered only at the Output state: one
masked write of the GPIO value register with this pin's bitmask, value
u32::MAX for High and 0 for Low. -/
def XbGpioPin.write (p : XbGpioPin .Output) (d : Driver) (state : PinState) :
    List DriverCall × Except Int Unit :=
  let mask := pin_to_bitmask p.pin
  let c := match state with
    | .High => DriverCall.gpioMaskedWrite mask (2 ^ 32 - 1)
    | .Low => DriverCall.gpioMaskedWrite mask 0
  ([c], d.respond c)

/-- The register value XbGpioPin::write hands the masked write for each level
(u32::MAX for High, 0 for Low; lines 98-101). -/
def levelVal : PinState → Nat
  | .High => 2 ^ 32 - 1
  | .Low => 0

/-- At which direction states the source offers the into_input / into_output
conversions: their impl block `impl<'a, T, D: BladeRF> XbGpioPin<'a, T, D>`
(line 56) binds the direction tag T with no constraint, so the conversions
are offered at every state. -/
def conversionOffered : PinDir → Bool := fun _ => true

/-- The availability the spec sentence asserts: a conversion only on the
Undirected (Disabled) state. -/
def conversionOfferedSpec : PinDir → Bool := fun t => t == .Disabled

/-- Modelled from the spec: the driver boundary's masked register write
(libbladerf's bladerf_expansion_gpio_masked_write and its direction-register
twin live outside this repository).  Within the 32-bit register, the bits
selected by the mask take the new value and every other bit keeps the old:
new = (old AND NOT mask) OR (value AND mask). -/
def maskedWriteReg (reg mask value : Nat) : Nat :=
  (reg &&& ((2 ^ 32 - 1) ^^^ mask)) ||| (value &&& mask)

/-!
Trace observations and concrete mock drivers used by the scenario theorems.
-/

/-- A teardown call: disabling some channel. -/
def isTeardownCall : DriverCall → Bool
  | .setEnableModule _ false => true
  | _ => false

/-- A configuration call reaching the driver boundary (set_sync_config). -/
def isConfigureCall : DriverCall → Bool
  | .setSyncConfig .. => true
  | _ => false

/-- No teardown call occurs at or after any configuration call of the trace. -/
def teardownPrecedesConfigure : List DriverCall → Bool
  | [] => true
  | c :: rest =>
    if isConfigureCall c then
      rest.all (fun x => !(isTeardownCall x)) && teardownPrecedesConfigure rest
    else teardownPrecedesConfigure rest

/-- The trace contains a teardown call and a configuration call, and every
teardown call comes strictly before every configuration call. -/
def invokesTeardownBeforeConfigure (t : List DriverCall) : Bool :=
  t.any isTeardownCall && t.any isConfigureCall && teardownPrecedesConfigure t

/-- The on/off state a channel is left in by the successful enable/disable
calls of a trace (a call the driver rejected does not change the channel). -/
def appliedEnable (d : Driver) (t : List DriverCall) (ch : Channel) : Bool :=
  t.foldl (fun st c =>
    match c, d.respond c with
    | .setEnableModule ch2 b, .ok _ => if ch2 = ch then b else st
    | _, _ => st) false

/-- An all-accepting mock driver whose GPIO value register reads 0. -/
def dOk : Driver := { respond := fun _ => .ok (), gpioVal := 0 }

/-- A mock driver that rejects only the second-channel enables (Rx1 with
status -7, Tx1 with status -9) and accepts everything else. -/
def dFailSecond : Driver :=
  { respond := fun c =>
      match c with
      | .setEnableModule .Rx1 true => .error (-7)
      | .setEnableModule .Tx1 true => .error (-9)
      | _ => .ok ()
    gpioVal := 0 }

/-- An all-accepting mock driver whose GPIO value register reads 0x00000010. -/
def dRegTen : Driver := { respond := fun _ => .ok (), gpioVal := 0x10 }

/-- A concrete stream configuration for the scenario theorems. -/
def cfg0 : StreamConfig := ⟨4, 4096, 8, 1000⟩

/-- A concrete single-channel RX handle. -/
def rxS0 : RxSyncStream := ⟨.SISO .Rx0, cfg0, 0⟩

/-- A concrete dual-channel RX handle. -/
def rxM0 : RxSyncStream := ⟨.MIMO, cfg0, 0⟩

/-- A concrete dual-channel TX handle. -/
def txM0 : TxSyncStream := ⟨.MIMO, cfg0, 0⟩

/-!
Helper lemmas for the GPIO bit arithmetic.
-/

/-- pinstate_from_reg reads exactly bit pin - 1 of the register. -/
theorem pinstate_from_reg_eq_testBit (pin reg : Nat) :
    pinstate_from_reg pin reg = reg.testBit (pin - 1) := by
  rw [pinstate_from_reg, Nat.and_one_is_mod, Nat.shiftRight_eq_div_pow,
    Nat.testBit_to_div_mod]
  rcases Nat.decEq (reg / 2 ^ (pin - 1) % 2) 1 with h | h
  · simp [h]
  · simp [h]

/-- In range, pin_to_bitmask is the power of two at the pin's bit index. -/
theorem pin_to_bitmask_eq_pow (pin : Nat) (h1 : 1 ≤ pin) (h2 : pin ≤ 32) :
    pin_to_bitmask pin = 2 ^ (pin - 1) := by
  have hk : pin - 1 < 32 := by omega
  rw [pin_to_bitmask, Nat.shiftLeft_eq, one_mul]
  exact Nat.mod_eq_of_lt (Nat.pow_lt_pow_right (by norm_num) hk)

/-- Bitwise reading of the spec-modelled masked register write against a
single-bit mask: the masked bit takes the written value, every other bit below
the register width keeps its old value. -/
theorem maskedWriteReg_testBit (r v k j : Nat) (hj : j < 32) :
    (maskedWriteReg r (2 ^ k) v).testBit j =
      if j = k then v.testBit j else r.testBit j := by
  rw [maskedWriteReg, Nat.testBit_or, Nat.testBit_and, Nat.testBit_and,
    Nat.testBit_xor, Nat.testBit_two_pow_sub_one, Nat.testBit_two_pow]
  rcases Nat.decEq j k with h | h
  · simp [h, Ne.symm h, hj]
  · subst h
    simp [hj]

/-!
The claims.
-/

/-- C4: for every valid pin number p in 1..32 the bit index used is p - 1 and
pin_to_bitmask p = 1 <<< (p - 1) = 2 ^ (p - 1); and after the masked write of
level L for pin p into a 32-bit register r, reading pin p back through
pinstate_from_reg yields L, while the bit of any other pin q in 1..32 is
unchanged. -/
theorem C4_bitmask_roundtrip (p q r : Nat) (L : PinState)
    (hp1 : 1 ≤ p) (hp2 : p ≤ 32) (hr : r < 2 ^ 32)
    (hq1 : 1 ≤ q) (hq2 : q ≤ 32) (hqp : q ≠ p) :
    pin_to_bitmask p = 1 <<< (p - 1) ∧
    pin_to_bitmask p = 2 ^ (p - 1) ∧
    pinstate_from_reg p (maskedWriteReg r (pin_to_bitmask p) (levelVal L))
      = (L == PinState.High) ∧
    pinstate_from_reg q (maskedWriteReg r (pin_to_bitmask p) (levelVal L))
      = pinstate_from_reg q r := by
  have hmask := pin_to_bitmask_eq_pow p hp1 hp2
  have hp32 : p - 1 < 32 := by omega
  refine ⟨?_, hmask, ?_, ?_⟩
  · rw [hmask, Nat.shiftLeft_eq, one_mul]
  · rw [pinstate_from_reg_eq_testBit, hmask,
      maskedWriteReg_testBit r (levelVal L) (p - 1) (p - 1) hp32, if_pos rfl]
    cases L
    · rw [show levelVal PinState.High = 2 ^ 32 - 1 from rfl,
        Nat.testBit_two_pow_sub_one]
      simp [hp32]
    · simp [levelVal]
  · rw [pinstate_from_reg_eq_testBit, pinstate_from_reg_eq_testBit q r, hmask,
      maskedWriteReg_testBit r (levelVal L) (p - 1) (q - 1) (by omega)]
    have hne : q - 1 ≠ p - 1 := by omega
    simp [hne]

/-- Witness for C4 at pin 5, other pin 6, register 0x12345678, level High. -/
theorem C4_bitmask_roundtrip_witness :
    pin_to_bitmask 5 = 1 <<< (5 - 1) ∧
    pin_to_bitmask 5 = 2 ^ (5 - 1) ∧
    pinstate_from_reg 5
        (maskedWriteReg 0x12345678 (pin_to_bitmask 5) (levelVal PinState.High))
      = (PinState.High == PinState.High) ∧
    pinstate_from_reg 6
        (maskedWriteReg 0x12345678 (pin_to_bitmask 5) (levelVal PinState.High))
      = pinstate_from_reg 6 0x12345678 :=
  C4_bitmask_roundtrip 5 6 0x12345678 PinState.High (by decide) (by decide)
    (by decide) (by decide) (by decide) (by decide)

/-- C8: an input-typed pin p reads High exactly when bit p - 1 of the GPIO
value register is set and Low otherwise — with the value register 0x00000010,
pin 5 reads High and pin 6 reads Low; an output-typed pin p given write(High)
issues exactly one masked write whose mask is pin p's bit alone — for pin 5 it
takes a zero register to 0x00000010, with every other bit still clear. -/
theorem C8_pin_read_write_scenarios :
    (∀ (p : XbGpioPin PinDir.Input) (d : Driver),
      d.respond .gpioRead = .ok () →
      (p.read d).2
        = .ok (if d.gpioVal.testBit (p.pin - 1) then PinState.High else PinState.Low)) ∧
    (XbGpioPin.read ⟨5⟩ dRegTen).2 = .ok PinState.High ∧
    (XbGpioPin.read ⟨6⟩ dRegTen).2 = .ok PinState.Low ∧
    (∀ (q : XbGpioPin PinDir.Output) (d : Driver),
      (q.write d PinState.High).1
        = [DriverCall.gpioMaskedWrite (pin_to_bitmask q.pin) (2 ^ 32 - 1)]) ∧
    (XbGpioPin.write ⟨5⟩ dRegTen PinState.High).1
      = [DriverCall.gpioMaskedWrite (pin_to_bitmask 5) (2 ^ 32 - 1)] ∧
    maskedWriteReg 0 (pin_to_bitmask 5) (levelVal PinState.High) = 0x10 ∧
    (∀ j : Nat, j ≠ 4 →
      (maskedWriteReg 0 (pin_to_bitmask 5) (levelVal PinState.High)).testBit j
        = false) := by
  refine ⟨?_, rfl, rfl, fun q d => rfl, rfl, by decide, ?_⟩
  · intro p d h
    rw [XbGpioPin.read, h, pinstate_from_reg_eq_testBit]
  · intro j hj
    have h16 : maskedWriteReg 0 (pin_to_bitmask 5) (levelVal PinState.High)
        = 2 ^ 4 := by decide
    rw [h16, Nat.testBit_two_pow]
    simp [Ne.symm hj]

/-- C10: the bitmask helpers, under the source's checked integer semantics
(u8 subtraction underflow at pin 0, u32 shift overflow for pin > 32), are
panic-free exactly for pin numbers 1..=32; in range the checked helper agrees
with the total model; and XbGpioPin::new stores any pin number unchecked. -/
theorem C10_helpers_range :
    (∀ pin : Nat, pin < 256 →
      ((pin_to_bitmask_checked pin).isSome ↔ (1 ≤ pin ∧ pin ≤ 32))) ∧
    (∀ pin reg : Nat, pin < 256 →
      ((pinstate_from_reg_checked pin reg).isSome ↔ (1 ≤ pin ∧ pin ≤ 32))) ∧
    (∀ pin : Nat, 1 ≤ pin → pin ≤ 32 →
      pin_to_bitmask_checked pin = some (pin_to_bitmask pin)) ∧
    (∀ pin : Nat, (XbGpioPin.new pin).pin = pin) := by
  refine ⟨?_, ?_, ?_, fun pin => rfl⟩
  · intro pin _
    rw [pin_to_bitmask_checked]
    split_ifs <;> simp <;> omega
  · intro pin reg _
    rw [pinstate_from_reg_checked]
    split_ifs <;> simp <;> omega
  · intro pin h1 h2
    have hk : pin - 1 < 32 := by omega
    rw [pin_to_bitmask_checked, if_neg (by omega), if_neg (by omega),
      pin_to_bitmask, Nat.mod_eq_of_lt]
    rw [Nat.shiftLeft_eq, one_mul]
    exact Nat.pow_lt_pow_right (by norm_num) hk

/-- C2 counterexample: the source offers the direction conversions on an
Output-typed handle as well (the impl block binds the direction tag
generically), against the spec's claim that they exist only on the Undirected
state. -/
theorem C2_counterexample :
    conversionOffered PinDir.Output ≠ conversionOfferedSpec PinDir.Output := by
  decide

/-- C2 as amended: into_input and into_output are offered at every direction
state, not only Undirected; at any state each consumes the handle, performs
the one masked direction-register write for this pin's bit (0 for input,
u32::MAX for output), and returns the retagged handle with the same pin
number when the driver accepts. -/
theorem C2_conversions_any_state (T : PinDir) (p : XbGpioPin T) (d : Driver) :
    conversionOffered T = true ∧
    (p.into_input d).1 = [DriverCall.gpioDirMaskedWrite (pin_to_bitmask p.pin) 0] ∧
    (p.into_output d).1
      = [DriverCall.gpioDirMaskedWrite (pin_to_bitmask p.pin) (2 ^ 32 - 1)] ∧
    (d.respond (DriverCall.gpioDirMaskedWrite (pin_to_bitmask p.pin) 0) = .ok () →
      (p.into_input d).2 = .ok ⟨p.pin⟩) ∧
    (d.respond (DriverCall.gpioDirMaskedWrite (pin_to_bitmask p.pin) (2 ^ 32 - 1)) = .ok () →
      (p.into_output d).2 = .ok ⟨p.pin⟩) := by
  refine ⟨rfl, ?_, ?_, ?_, ?_⟩
  · rw [XbGpioPin.into_input]
    rcases d.respond (DriverCall.gpioDirMaskedWrite (pin_to_bitmask p.pin) 0) with e | u
    · rfl
    · rfl
  · rw [XbGpioPin.into_output]
    rcases d.respond (DriverCall.gpioDirMaskedWrite (pin_to_bitmask p.pin) (2 ^ 32 - 1)) with e | u
    · rfl
    · rfl
  · intro h
    rw [XbGpioPin.into_input, h]
  · intro h
    rw [XbGpioPin.into_output, h]

/-- C1: reconfigure ordering at the driver boundary.  Both RX reconfigure
paths (borrowed and Arc) put the teardown disables strictly before the
set_sync_config call; both TX reconfigure paths issue set_sync_config first
and only then the Drop disables, so the claimed ordering fails for every TX
handle — the TX trace is exactly [set_sync_config, disable Tx0, disable Tx1]. -/
theorem C1_reconfigure_ordering :
    (∀ (s : RxSyncStream) (d : Driver) (config : StreamConfig)
        (layout : ChannelLayoutRx) (nf : SampleFormat),
      invokesTeardownBeforeConfigure
          (RxSyncStream.reconfigure_inner_ref s d config layout nf).1 = true ∧
      invokesTeardownBeforeConfigure
          (RxSyncStream.reconfigure_inner_arc s d config layout nf).1 = true) ∧
    (∀ (s : TxSyncStream) (d : Driver) (config : StreamConfig)
        (layout : ChannelLayoutTx) (nf : SampleFormat),
      (TxSyncStream.reconfigure_inner_ref s d config layout nf).1
        = [DriverCall.setSyncConfig nf (.tx layout) config,
           DriverCall.setEnableModule .Tx0 false,
           DriverCall.setEnableModule .Tx1 false] ∧
      invokesTeardownBeforeConfigure
          (TxSyncStream.reconfigure_inner_ref s d config layout nf).1 = false ∧
      invokesTeardownBeforeConfigure
          (TxSyncStream.reconfigure_inner_arc s d config layout nf).1 = false) := by
  constructor
  · intro s d config layout nf
    constructor
    · rw [RxSyncStream.reconfigure_inner_ref, RxSyncStream.dropImpl, RxSyncStream.new]
      rcases d.respond (DriverCall.setSyncConfig nf (.rx layout) config) with e | u
      · rfl
      · rfl
    · rw [RxSyncStream.reconfigure_inner_arc, RxSyncStream.dropImpl, RxSyncStream.new]
      rcases d.respond (DriverCall.setSyncConfig nf (.rx layout) config) with e | u
      · rfl
      · rfl
  · intro s d config layout nf
    refine ⟨?_, ?_, ?_⟩
    · rw [TxSyncStream.reconfigure_inner_ref, TxSyncStream.dropImpl, TxSyncStream.new]
      rcases d.respond (DriverCall.setSyncConfig nf (.tx layout) config) with e | u
      · rfl
      · rfl
    · rw [TxSyncStream.reconfigure_inner_ref, TxSyncStream.dropImpl, TxSyncStream.new]
      rcases d.respond (DriverCall.setSyncConfig nf (.tx layout) config) with e | u
      · rfl
      · rfl
    · rw [TxSyncStream.reconfigure_inner_arc, TxSyncStream.dropImpl, TxSyncStream.new]
      rcases d.respond (DriverCall.setSyncConfig nf (.tx layout) config) with e | u
      · rfl
      · rfl

/-- C3: on a dual-channel (MIMO) layout, enable for the dual-channel-capable
variant turns on channel 0 before channel 1; when the driver accepts the
channel-0 enable and rejects the channel-1 enable, the operation returns
exactly the error of the channel-1 call, and channel 0 is left enabled by the
trace (no rollback call follows), for both directions. -/
theorem C3_dual_enable_partial_failure (d : Driver) (s : RxSyncStream)
    (t : TxSyncStream) (e f : Int)
    (hs : s.layout = .MIMO) (ht : t.layout = .MIMO)
    (hcr : d.respond s.cfgCall = .ok ())
    (hr0 : d.respond (.setEnableModule .Rx0 true) = .ok ())
    (hr1 : d.respond (.setEnableModule .Rx1 true) = .error e)
    (hct : d.respond t.cfgCall = .ok ())
    (ht0 : d.respond (.setEnableModule .Tx0 true) = .ok ())
    (ht1 : d.respond (.setEnableModule .Tx1 true) = .error f) :
    (s.enableRf2 d).1
      = [s.cfgCall, .setEnableModule .Rx0 true, .setEnableModule .Rx1 true] ∧
    (s.enableRf2 d).2 = .error e ∧
    appliedEnable d (s.enableRf2 d).1 .Rx0 = true ∧
    (t.enableRf2 d).1
      = [t.cfgCall, .setEnableModule .Tx0 true, .setEnableModule .Tx1 true] ∧
    (t.enableRf2 d).2 = .error f ∧
    appliedEnable d (t.enableRf2 d).1 .Tx0 = true := by
  have hsr : s.enableRf2 d
      = ([s.cfgCall, .setEnableModule .Rx0 true, .setEnableModule .Rx1 true],
        .error e) := by
    simp only [RxSyncStream.enableRf2, hcr, hs, hr0, hr1]
  have htr : t.enableRf2 d
      = ([t.cfgCall, .setEnableModule .Tx0 true, .setEnableModule .Tx1 true],
        .error f) := by
    simp only [TxSyncStream.enableRf2, hct, ht, ht0, ht1]
  rw [hsr, htr]
  refine ⟨rfl, rfl, ?_, rfl, rfl, ?_⟩
  · rw [appliedEnable]
    simp [List.foldl, hcr, hr0, hr1]
  · rw [appliedEnable]
    simp [List.foldl, hct, ht0, ht1]

/-- Witness for C3: the mock that rejects only the second-channel enables. -/
theorem C3_dual_enable_partial_failure_witness :
    (rxM0.enableRf2 dFailSecond).1
      = [rxM0.cfgCall, .setEnableModule .Rx0 true, .setEnableModule .Rx1 true] ∧
    (rxM0.enableRf2 dFailSecond).2 = .error (-7) ∧
    appliedEnable dFailSecond (rxM0.enableRf2 dFailSecond).1 .Rx0 = true ∧
    (txM0.enableRf2 dFailSecond).1
      = [txM0.cfgCall, .setEnableModule .Tx0 true, .setEnableModule .Tx1 true] ∧
    (txM0.enableRf2 dFailSecond).2 = .error (-9) ∧
    appliedEnable dFailSecond (txM0.enableRf2 dFailSecond).1 .Tx0 = true :=
  C3_dual_enable_partial_failure dFailSecond rxM0 txM0 (-7) (-9) rfl rfl rfl rfl
    rfl rfl rfl rfl

/-- C5: every enable first re-asserts the stored configuration with a
set_sync_config call built from the handle's stored config and layout, and
only then issues the channel enables named by the stored layout; if the
driver rejects the set_sync_config call, that error is returned and no
channel-enable call appears in the trace. -/
theorem C5_enable_reasserts_config_first :
    (∀ (s : RxSyncStream) (d : Driver) (e : Int),
      d.respond s.cfgCall = .error e →
        s.enableRf1 d = ([s.cfgCall], .error e) ∧
        s.enableAny d = ([s.cfgCall], .error e)) ∧
    (∀ (t : TxSyncStream) (d : Driver) (e : Int),
      d.respond t.cfgCall = .error e →
        t.enableRf1 d = ([t.cfgCall], .error e)) ∧
    (∀ (s : RxSyncStream) (d : Driver),
      s.layout = .SISO .Rx0 → d.respond s.cfgCall = .ok () →
        s.enableRf1 d = ([s.cfgCall, .setEnableModule .Rx0 true],
          d.respond (.setEnableModule .Rx0 true))) ∧
    (∀ (t : TxSyncStream) (d : Driver),
      t.layout = .SISO .Tx0 → d.respond t.cfgCall = .ok () →
        t.enableRf1 d = ([t.cfgCall, .setEnableModule .Tx0 true],
          d.respond (.setEnableModule .Tx0 true))) ∧
    (∀ (s : RxSyncStream) (d : Driver) (ch : RxChannel),
      s.layout = .SISO ch → d.respond s.cfgCall = .ok () →
        s.enableAny d = ([s.cfgCall, .setEnableModule ch.toChannel true],
          d.respond (.setEnableModule ch.toChannel true))) ∧
    (∀ (s : RxSyncStream) (d : Driver),
      s.layout = .MIMO → d.respond s.cfgCall = .ok () →
      d.respond (.setEnableModule .Rx0 true) = .ok () →
        s.enableAny d
          = ([s.cfgCall, .setEnableModule .Rx0 true, .setEnableModule .Rx1 true],
            d.respond (.setEnableModule .Rx1 true))) := by
  refine ⟨?_, ?_, ?_, ?_, ?_, ?_⟩
  · intro s d e h
    constructor
    · simp only [RxSyncStream.enableRf1, h]
    · simp only [RxSyncStream.enableAny, h]
  · intro t d e h
    simp only [TxSyncStream.enableRf1, h]
  · intro s d _ h
    simp only [RxSyncStream.enableRf1, h]
  · intro t d _ h
    simp only [TxSyncStream.enableRf1, h]
  · intro s d ch hl h
    simp only [RxSyncStream.enableAny, h, hl]
  · intro s d hl h h0
    simp only [RxSyncStream.enableAny, h, hl, h0]

/-- C6: the automatic release glue of both stream directions always issues the
disable of channel 0 and channel 1 of its direction, whatever status the
driver answers, and returns no error (the results are discarded). -/
theorem C6_drop_disables_both_channels (d : Driver) :
    RxSyncStream.dropImpl d
      = ([.setEnableModule .Rx0 false, .setEnableModule .Rx1 false], ()) ∧
    TxSyncStream.dropImpl d
      = ([.setEnableModule .Tx0 false, .setEnableModule .Tx1 false], ()) :=
  ⟨rfl, rfl⟩

/-- C7: stream-handle construction issues the set_sync_config call and
produces a handle exactly when the driver accepts it; a rejection's status
code is returned as the error and no handle exists in the result. -/
theorem C7_construction_needs_driver_accept :
    (∀ (d : Driver) (fmt : SampleFormat) (config : StreamConfig)
        (layout : ChannelLayoutRx) (e : Int),
      d.respond (.setSyncConfig fmt (.rx layout) config) = .error e →
        RxSyncStream.new d fmt config layout
          = ([.setSyncConfig fmt (.rx layout) config], .error e)) ∧
    (∀ (d : Driver) (fmt : SampleFormat) (config : StreamConfig)
        (layout : ChannelLayoutRx),
      d.respond (.setSyncConfig fmt (.rx layout) config) = .ok () →
        RxSyncStream.new d fmt config layout
          = ([.setSyncConfig fmt (.rx layout) config], .ok ⟨layout, config, fmt⟩)) ∧
    (∀ (d : Driver) (fmt : SampleFormat) (config : StreamConfig)
        (layout : ChannelLayoutTx) (e : Int),
      d.respond (.setSyncConfig fmt (.tx layout) config) = .error e →
        TxSyncStream.new d fmt config layout
          = ([.setSyncConfig fmt (.tx layout) config], .error e)) ∧
    (∀ (d : Driver) (fmt : SampleFormat) (config : StreamConfig)
        (layout : ChannelLayoutTx),
      d.respond (.setSyncConfig fmt (.tx layout) config) = .ok () →
        TxSyncStream.new d fmt config layout
          = ([.setSyncConfig fmt (.tx layout) config], .ok ⟨layout, config, fmt⟩)) := by
  refine ⟨?_, ?_, ?_, ?_⟩
  · intro d fmt config layout e h
    simp only [RxSyncStream.new, h]
  · intro d fmt config layout h
    simp only [RxSyncStream.new, h]
  · intro d fmt config layout e h
    simp only [TxSyncStream.new, h]
  · intro d fmt config layout h
    simp only [TxSyncStream.new, h]

/-- C9 counterexample: a buffer of 2^32 samples is requested as a transfer of
0 samples (`buffer.len() as u32` truncates), so the transfer does not request
exactly buffer.length samples. -/
theorem C9_counterexample :
    (rxS0.read dOk (2 ^ 32) 1000).1 = [DriverCall.syncTransfer .Rx 0 1000] ∧
    (rxS0.read dOk (2 ^ 32) 1000).1
      ≠ [DriverCall.syncTransfer .Rx (2 ^ 32) 1000] := by
  constructor
  · show [DriverCall.syncTransfer .Rx (2 ^ 32 % 2 ^ 32) (1000 % 2 ^ 32)] = _
    norm_num
  · intro h
    simp only [RxSyncStream.read, List.cons.injEq, and_true] at h
    have := congrArg (fun c => match c with
      | DriverCall.syncTransfer _ n _ => n
      | _ => 0) h
    norm_num at this

/-- C9 as amended: each blocking transfer issues exactly one driver call
requesting buffer.length mod 2^32 samples with the supplied timeout in
milliseconds reduced mod 2^32 (the u32 casts truncate), and returns exactly
the driver's status for that call — success precisely when the driver reports
success, with no partial-transfer result representable; below 2^32 the
truncations are the identity. -/
theorem C9_transfer_request :
    (∀ (s : RxSyncStream) (d : Driver) (len tmo : Nat),
      s.read d len tmo
        = ([.syncTransfer .Rx (len % 2 ^ 32) (tmo % 2 ^ 32)],
          d.respond (.syncTransfer .Rx (len % 2 ^ 32) (tmo % 2 ^ 32)))) ∧
    (∀ (t : TxSyncStream) (d : Driver) (len tmo : Nat),
      t.write d len tmo
        = ([.syncTransfer .Tx (len % 2 ^ 32) (tmo % 2 ^ 32)],
          d.respond (.syncTransfer .Tx (len % 2 ^ 32) (tmo % 2 ^ 32)))) ∧
    (∀ len tmo : Nat, len < 2 ^ 32 → tmo < 2 ^ 32 →
      len % 2 ^ 32 = len ∧ tmo % 2 ^ 32 = tmo) := by
  refine ⟨fun s d len tmo => rfl, fun t d len tmo => rfl, ?_⟩
  intro len tmo h1 h2
  exact ⟨Nat.mod_eq_of_lt h1, Nat.mod_eq_of_lt h2⟩

end BRF
